import Mathlib

/-!
Shallow embedding of the django-multitenant engine
(src/django_multitenant/django_multitenant.py, with the near-duplicate copy in
src/test_app/stores/middleware.py embedded as the `middleware_`-prefixed
variants where the two copies differ), together with theorems settling the
frozen claims about the natural-language specification.

Conventions of the embedding:
  - the thread-local slot `_thread_locals.tenant` is passed explicitly as a
    `TenantCtx` value; `none` models both "attribute never set" and "set to
    Python None", because `getattr(_thread_locals, 'tenant', None)` returns
    None in both cases.  A stored non-None Python object is `some t` with
    `t.truthy` its Python truthiness (so Python False / 0 style falsy values
    are `some t` with `t.truthy = false`).
  - Django's `Query.add_extra([],[],where,params,[],[])` appends the raw SQL
    fragments and bound parameters to the query's extra-where state; it is
    modelled as list append on `Query.extra_where` / `Query.extra_params`
    (the spec's `appendRawPredicate(sqlFragment, boundParams)` boundary
    operation).
  - a raised Python exception is `Except.error`.
-/

namespace Multitenant

/-- Python object stored in the tenant slot: an id (the `.id` attribute used
by the filters) together with its Python truthiness, which is what the
`if current_tenant:` guards test. -/
structure PyTenant where
  id : Int
  truthy : Bool
deriving DecidableEq, Repr

/-- Content of the thread-local tenant slot as observed through
getattr(_thread_locals, 'tenant', None): `none` is absent-or-None. -/
abbrev TenantCtx := Option PyTenant

/-- set_current_tenant(tenant): setattr stores the value in the slot. -/
def set_current_tenant (tenant : TenantCtx) : TenantCtx :=
  tenant

/-- get_current_tenant(): returns getattr(_thread_locals, 'tenant', None). -/
def get_current_tenant (ctx : TenantCtx) : Option PyTenant :=
  ctx

/-- Entity metadata visible to the engine: the physical table name
(model._meta.db_table), whether the class is a subclass of TenantModel, the
class attribute tenant_id (the tenant column name), and the names of the
model's fields (what model._meta.get_field can resolve). -/
structure EntityType where
  db_table : String
  isTenantModel : Bool
  tenant_id : String
  fields : List String
deriving DecidableEq, Repr

/-- apps.get_models(): the registered models, in registration order. -/
abbrev Registry := List EntityType

/-- get_model_by_db_table(db_table): scans apps.get_models() and returns the
first model whose db_table matches; raises ValueError when none does. -/
def get_model_by_db_table (reg : Registry) (db_table : String) : Except String EntityType :=
  match reg.find? (fun m => m.db_table == db_table) with
  | some m => Except.ok m
  | none => Except.error ("No model found with db_table " ++ db_table ++ "!")

/-- model._meta.get_field(name): resolves a field by name, raising
FieldDoesNotExist when the model has no such field. -/
def EntityType.get_field (m : EntityType) (name : String) : Except String String :=
  if name ∈ m.fields then Except.ok name
  else Except.error ("FieldDoesNotExist: " ++ name)

/-- Abstract query state: base table, alias reference counts
(query.alias_refcount, in dict order), alias to physical-table map
(query.alias_map, projected to table_name), and the accumulated raw
extra-where fragments and bound parameters. -/
structure Query where
  alias_refcount : List (String × Nat)
  alias_map : List (String × String)
  extra_where : List String
  extra_params : List Int
deriving DecidableEq, Repr

/-- query.add_extra([],[],where,params,[],[]): appends the raw fragments and
their bound parameters to the query's extra-where state. -/
def Query.add_extra (q : Query) (whereList : List String) (params : List Int) : Query :=
  { q with extra_where := q.extra_where ++ whereList,
           extra_params := q.extra_params ++ params }

/-- Lookup of alias_map[k] (projected to .table_name); a missing key is a
Python KeyError. -/
def lookupAlias (amap : List (String × String)) (k : String) : Option String :=
  (amap.find? (fun p => p.1 == k)).map (fun p => p.2)

/-- The loop body's resolution step: get_model_by_db_table(alias_map[k].table_name),
a missing alias_map entry raising KeyError. -/
def resolveAlias (reg : Registry) (amap : List (String × String)) (k : String) :
    Except String EntityType :=
  match lookupAlias amap k with
  | none => Except.error ("KeyError: " ++ k)
  | some tname => get_model_by_db_table reg tname

/-- The raw SQL fragment built in the main module's join rewrite:
k + '."' + current_model.tenant_id + '" = %s'.  The tenant id itself is not
part of the fragment; it travels in the bound parameters. -/
def joinPredicate (k : String) (mdl : EntityType) : String :=
  k ++ ".\"" ++ mdl.tenant_id ++ "\" = %s"

/-- Loop of add_tenant_filters_with_joins in src/django_multitenant/django_multitenant.py:
for (k,v) in alias_refcount, when v > 0 and k differs from the base table,
resolve the alias's table to a model and, when that model subclasses
TenantModel, append the parameterized fragment and the tenant id parameter. -/
def collectJoinFilters (reg : Registry) (amap : List (String × String))
    (base : String) (tid : Int) :
    List (String × Nat) → Except String (List String × List Int)
  | [] => Except.ok ([], [])
  | (k, v) :: rest =>
    if 0 < v ∧ k ≠ base then
      match resolveAlias reg amap k with
      | Except.error e => Except.error e
      | Except.ok mdl =>
        match collectJoinFilters reg amap base tid rest with
        | Except.error e => Except.error e
        | Except.ok (sqls, params) =>
          if mdl.isTenantModel then
            Except.ok (joinPredicate k mdl :: sqls, tid :: params)
          else
            Except.ok (sqls, params)
    else
      collectJoinFilters reg amap base tid rest

/-- TenantQuerySet.add_tenant_filters_with_joins (main module copy): with a
truthy current tenant, walk the alias map, collect the parameterized tenant
fragments for TenantModel aliases, and append them via add_extra; with no or
a falsy current tenant the query is untouched.  A resolution failure raises
and the query is left unmutated (add_extra is only reached after the loop). -/
def add_tenant_filters_with_joins (reg : Registry) (ctx : TenantCtx)
    (model : EntityType) (q : Query) : Except String Query :=
  match get_current_tenant ctx with
  | none => Except.ok q
  | some t =>
    if t.truthy then
      match collectJoinFilters reg q.alias_map model.db_table t.id q.alias_refcount with
      | Except.error e => Except.error e
      | Except.ok (sqls, params) => Except.ok (q.add_extra sqls params)
    else
      Except.ok q

/-- TenantQuerySet.add_tenant_filters_without_joins (identical in both
copies): with a truthy current tenant, append the single fragment
table_name + '.' + tenant_id + '=' + str(current_tenant.id) with an empty
parameter list; otherwise leave the query untouched. -/
def add_tenant_filters_without_joins (ctx : TenantCtx) (model : EntityType)
    (q : Query) : Query :=
  match get_current_tenant ctx with
  | none => q
  | some t =>
    if t.truthy then
      q.add_extra [model.db_table ++ "." ++ model.tenant_id ++ "=" ++ toString t.id] []
    else
      q

/-- Loop of add_tenant_filters_with_joins in the near-duplicate copy
src/test_app/stores/middleware.py: same iteration, but no issubclass check
(every resolved alias model gets a fragment) and the tenant id is
string-interpolated into the fragment with no bound parameter. -/
def middleware_collectJoinFilters (reg : Registry) (amap : List (String × String))
    (base : String) (tid : Int) :
    List (String × Nat) → Except String (List String)
  | [] => Except.ok []
  | (k, v) :: rest =>
    if 0 < v ∧ k ≠ base then
      match resolveAlias reg amap k with
      | Except.error e => Except.error e
      | Except.ok mdl =>
        match middleware_collectJoinFilters reg amap base tid rest with
        | Except.error e => Except.error e
        | Except.ok sqls =>
          Except.ok ((k ++ "." ++ mdl.tenant_id ++ "=" ++ toString tid) :: sqls)
    else
      middleware_collectJoinFilters reg amap base tid rest

/-- TenantQuerySet.add_tenant_filters_with_joins, middleware copy. -/
def middleware_add_tenant_filters_with_joins (reg : Registry) (ctx : TenantCtx)
    (model : EntityType) (q : Query) : Except String Query :=
  match get_current_tenant ctx with
  | none => Except.ok q
  | some t =>
    if t.truthy then
      match middleware_collectJoinFilters reg q.alias_map model.db_table t.id q.alias_refcount with
      | Except.error e => Except.error e
      | Except.ok sqls => Except.ok (q.add_extra sqls [])
    else
      Except.ok q

/-- State mutation that TenantQuerySet.count performs on self.query before
delegating to the superclass count. -/
def count_rewrite (reg : Registry) (ctx : TenantCtx) (model : EntityType)
    (q : Query) : Except String Query :=
  add_tenant_filters_with_joins reg ctx model q

/-- State mutation that the iteration path (TenantQuerySet.__iter__) performs
on self.query before delegating to the superclass iterator. -/
def iter_rewrite (reg : Registry) (ctx : TenantCtx) (model : EntityType)
    (q : Query) : Except String Query :=
  add_tenant_filters_with_joins reg ctx model q

/-- A database row: its column values, addressed by column name. -/
structure DBRow where
  cols : String → Int

/-- TenantManager.get_queryset: with a truthy current tenant, the unscoped
queryset filtered by the kwargs dict dictionary-literal
with key model.tenant_id and value current_tenant.id; otherwise the unscoped
queryset unchanged. -/
def TenantManager.get_queryset (ctx : TenantCtx) (model : EntityType)
    (unscoped : List DBRow) : List DBRow :=
  match get_current_tenant ctx with
  | none => unscoped
  | some t =>
    if t.truthy then
      unscoped.filter (fun r => r.cols model.tenant_id == t.id)
    else
      unscoped

/-- Argument vector of a _do_update call: the target-row queryset and the
remaining arguments that are handed on to the superclass. -/
structure UpdateCall where
  base_qs : List DBRow
  using_db : String
  pk_val : Int
  values : List (String × Int)
  update_fields : List String
  forced_update : Bool

/-- TenantModel._do_update: with a truthy current tenant, base_qs is narrowed
by the filter kwargs mapping the class's tenant_id column to
current_tenant.id before the call is delegated; all other arguments pass
through unchanged.  The returned UpdateCall is the argument vector received
by the superclass _do_update. -/
def TenantModel._do_update (ctx : TenantCtx) (model : EntityType)
    (c : UpdateCall) : UpdateCall :=
  match get_current_tenant ctx with
  | none => c
  | some t =>
    if t.truthy then
      { c with base_qs := c.base_qs.filter (fun r => r.cols model.tenant_id == t.id) }
    else
      c

/-- A TenantForeignKey relation: self.model (the declaring side) and
self.related_model (the target side). -/
structure TenantForeignKey where
  model : EntityType
  related_model : EntityType
deriving DecidableEq, Repr

/-- Declaring a TenantForeignKey in a model class body runs only the
inherited Django ForeignKey construction: the source's TenantForeignKey
class adds no definition-time validation of either side's tenant column
(it defines only the two query-time overrides), so declaration always
succeeds and merely records the two models. -/
def TenantForeignKey.declare (model related_model : EntityType) :
    Except String TenantForeignKey :=
  Except.ok { model := model, related_model := related_model }

/-- One exact-match lookup between two aliased columns, as produced by
lhs_field.get_lookup('exact')(lhs_field.get_col(related_alias),
rhs_field.get_col(alias)). -/
structure ColLookup where
  lhs_alias : String
  lhs_col : String
  rhs_alias : String
  rhs_col : String
deriving DecidableEq, Repr

/-- A where-condition node: the conjunction of its lookups
(where_class() starts empty; .add(lookup, 'AND') appends a conjunct). -/
structure Condition where
  lookups : List ColLookup
deriving DecidableEq, Repr

/-- condition.add(lookup, 'AND'). -/
def Condition.add (c : Condition) (l : ColLookup) : Condition :=
  { lookups := c.lookups ++ [l] }

/-- TenantForeignKey.get_extra_restriction: resolves the tenant fields of
both sides via _meta.get_field (raising FieldDoesNotExist when a side's
tenant column is not a real field) and returns the condition
related_alias.lhs_tenant_id = alias.rhs_tenant_id ANDed into a fresh
where node.  The ambient thread-local context is in scope (passed here as
ctx, as for every query-time operation) but the body never reads it. -/
def TenantForeignKey.get_extra_restriction (ctx : TenantCtx)
    (fk : TenantForeignKey) (al related_alias : String) :
    Except String Condition :=
  let lhs_tenant_id := fk.model.tenant_id
  let rhs_tenant_id := fk.related_model.tenant_id
  match fk.model.get_field lhs_tenant_id with
  | Except.error e => Except.error e
  | Except.ok lhs_field =>
    match fk.related_model.get_field rhs_tenant_id with
    | Except.error e => Except.error e
    | Except.ok rhs_field =>
      let lookup : ColLookup :=
        { lhs_alias := related_alias, lhs_col := lhs_field,
          rhs_alias := al, rhs_col := rhs_field }
      Except.ok (Condition.add { lookups := [] } lookup)

/-- TenantForeignKey.get_extra_descriptor_filter: with a truthy current
tenant, the kwargs dict mapping the instance class's tenant_id to
current_tenant.id; otherwise (after logging a warning) the inherited
ForeignKey descriptor filter, which is empty. -/
def TenantForeignKey.get_extra_descriptor_filter (ctx : TenantCtx)
    (instance_model : EntityType) : List (String × Int) :=
  match get_current_tenant ctx with
  | none => []
  | some t =>
    if t.truthy then [(instance_model.tenant_id, t.id)]
    else []

/-- An assignment of column values to query aliases, for evaluating a join
condition over one candidate row pair. -/
def pairAssign (related_alias al : String) (lrow rrow : DBRow) :
    String → String → Int :=
  fun a c => if a = related_alias then lrow.cols c
             else if a = al then rrow.cols c
             else 0

/-- Evaluation of a condition (conjunction of exact lookups) under an
alias-to-row assignment. -/
def evalCondition (c : Condition) (assign : String → String → Int) : Bool :=
  c.lookups.all (fun l => assign l.lhs_alias l.lhs_col == assign l.rhs_alias l.rhs_col)

/-- Result pairs of a join between the declaring side's rows and the related
side's rows: a pair survives when the caller's explicit join key matches and
the extra restriction condition evaluates true. -/
def joinPairs (lhsRows rhsRows : List DBRow) (related_alias al : String)
    (joinKey : DBRow → DBRow → Bool) (cond : Condition) : List (DBRow × DBRow) :=
  (lhsRows.flatMap (fun l => rhsRows.map (fun r => (l, r)))).filter
    (fun p => joinKey p.1 p.2 && evalCondition cond (pairAssign related_alias al p.1 p.2))

/-- A user profile object: its Python truthiness and
getattr(profile, 'tenant', None). -/
structure PyProfile where
  truthy : Bool
  tenant : TenantCtx

/-- A request user object: Python truthiness, user.is_anonymous(), and the
outcome of user.get_profile() (error models a raised exception). -/
structure PyUser where
  truthy : Bool
  is_anonymous : Bool
  get_profile : Except Unit PyProfile

/-- The thread-local state touched by the middleware: the user slot and the
tenant slot. -/
structure ThreadState where
  user : Option PyUser
  tenant : TenantCtx

/-- An inbound request as the middleware sees it:
getattr(request, 'user', None). -/
structure HttpRequest where
  user : Option PyUser

/-- ThreadLocals.process_request: stores the request user in the thread-local
user slot; when that user is truthy and not anonymous, resolves its profile
(a raised exception becomes the hard ValueError) and, when the profile is
truthy, stores getattr(profile, 'tenant', None) in the tenant slot.  On
every other path the tenant slot is left exactly as it was. -/
def ThreadLocals.process_request (st : ThreadState) (request : HttpRequest) :
    Except String ThreadState :=
  let st1 : ThreadState := { st with user := request.user }
  match st1.user with
  | none => Except.ok st1
  | some u =>
    if u.truthy ∧ u.is_anonymous = false then
      match u.get_profile with
      | Except.error _ =>
        Except.error "A User was created with no profile.  For security reasons, we cannot allow the request to be processed any further."
      | Except.ok profile =>
        if profile.truthy then
          Except.ok { st1 with tenant := profile.tenant }
        else
          Except.ok st1
    else
      Except.ok st1

/-!
Concrete demo data, modelled on src/test_app/stores/models.py: Store is a
plain Model (not a TenantModel subclass) with tenant_id set to 'id', while
Product and Purchase subclass TenantModel with tenant_id 'store_id'.
-/

/-- The Store model: not a TenantModel subclass. -/
def storeEntity : EntityType :=
  { db_table := "stores_store", isTenantModel := false,
    tenant_id := "id", fields := ["id", "name"] }

/-- The Product model: a TenantModel subclass with tenant column store_id. -/
def productEntity : EntityType :=
  { db_table := "stores_product", isTenantModel := true,
    tenant_id := "store_id", fields := ["id", "store_id", "name", "description"] }

/-- The Purchase model: a TenantModel subclass with tenant column store_id. -/
def purchaseEntity : EntityType :=
  { db_table := "stores_purchase", isTenantModel := true,
    tenant_id := "store_id", fields := ["id", "store_id", "product_id", "quantity"] }

/-- A registry as apps.get_models() would report it for the demo app. -/
def demoReg : Registry := [storeEntity, productEntity, purchaseEntity]

/-- A truthy tenant object with id 1. -/
def tenantOne : PyTenant := { id := 1, truthy := true }

/-- An empty query over the Product base table. -/
def emptyQuery : Query :=
  { alias_refcount := [], alias_map := [], extra_where := [], extra_params := [] }

/-- A query whose only used join alias is the Purchase table. -/
def demoQuery : Query :=
  { alias_refcount := [("stores_purchase", 1)],
    alias_map := [("stores_purchase", "stores_purchase")],
    extra_where := [], extra_params := [] }

/-- A query joining both the Purchase table (tenant-scoped) and the Store
table (not tenant-scoped). -/
def mixedJoinQuery : Query :=
  { alias_refcount := [("stores_purchase", 1), ("stores_store", 2)],
    alias_map := [("stores_purchase", "stores_purchase"), ("stores_store", "stores_store")],
    extra_where := [], extra_params := [] }

/-- A query whose only used join alias is the Store table. -/
def demoStoreJoinQuery : Query :=
  { alias_refcount := [("stores_store", 1)],
    alias_map := [("stores_store", "stores_store")],
    extra_where := [], extra_params := [] }

/-- A demo row whose store_id column is the given value. -/
def demoRow (sid : Int) : DBRow :=
  { cols := fun c => if c = "store_id" then sid else 0 }

/-!
Helper lemmas about the join-rewrite loop.
-/

/-- A fragment is collected exactly for the used, non-base aliases that
resolve to a TenantModel subclass. -/
theorem collectJoinFilters_mem (reg : Registry) (amap : List (String × String))
    (base : String) (tid : Int) :
    ∀ (l : List (String × Nat)) (sqls : List String) (params : List Int),
      collectJoinFilters reg amap base tid l = Except.ok (sqls, params) →
      ∀ f, f ∈ sqls ↔ ∃ k v mdl, (k, v) ∈ l ∧ 0 < v ∧ k ≠ base ∧
        resolveAlias reg amap k = Except.ok mdl ∧ mdl.isTenantModel = true ∧
        f = joinPredicate k mdl := by
  intro l
  induction l with
  | nil =>
    intro sqls params h f
    simp only [collectJoinFilters] at h
    cases h
    simp
  | cons hd rest ih =>
    obtain ⟨k0, v0⟩ := hd
    intro sqls params h f
    simp only [collectJoinFilters] at h
    by_cases hg : 0 < v0 ∧ k0 ≠ base
    · rw [if_pos hg] at h
      cases hres : resolveAlias reg amap k0 with
      | error e => rw [hres] at h; cases h
      | ok mdl =>
        rw [hres] at h
        dsimp only at h
        cases hcol : collectJoinFilters reg amap base tid rest with
        | error e => rw [hcol] at h; cases h
        | ok pr =>
          obtain ⟨s, p⟩ := pr
          rw [hcol] at h
          dsimp only at h
          by_cases htm : mdl.isTenantModel
          · rw [if_pos htm] at h
            injection h with h
            rw [Prod.mk.injEq] at h
            obtain ⟨hs, hp⟩ := h
            subst hs
            constructor
            · intro hf
              rcases List.mem_cons.mp hf with hf | hf
              · exact ⟨k0, v0, mdl, List.mem_cons_self _ _, hg.1, hg.2, hres, htm, hf⟩
              · obtain ⟨k, v, m, hm, h1, h2, h3, h4, h5⟩ := (ih _ _ hcol f).mp hf
                exact ⟨k, v, m, List.mem_cons_of_mem _ hm, h1, h2, h3, h4, h5⟩
            · rintro ⟨k, v, m, hm, h1, h2, h3, h4, h5⟩
              rcases List.mem_cons.mp hm with hm | hm
              · rw [Prod.mk.injEq] at hm
                obtain ⟨hk, hv⟩ := hm
                subst hk
                rw [hres] at h3
                injection h3 with h3
                subst h3
                exact h5 ▸ List.mem_cons_self _ _
              · exact List.mem_cons_of_mem _ ((ih _ _ hcol f).mpr ⟨k, v, m, hm, h1, h2, h3, h4, h5⟩)
          · rw [if_neg htm] at h
            injection h with h
            rw [Prod.mk.injEq] at h
            obtain ⟨hs, hp⟩ := h
            subst hs
            rw [ih _ _ hcol f]
            constructor
            · rintro ⟨k, v, m, hm, h1, h2, h3, h4, h5⟩
              exact ⟨k, v, m, List.mem_cons_of_mem _ hm, h1, h2, h3, h4, h5⟩
            · rintro ⟨k, v, m, hm, h1, h2, h3, h4, h5⟩
              rcases List.mem_cons.mp hm with hm | hm
              · rw [Prod.mk.injEq] at hm
                obtain ⟨hk, hv⟩ := hm
                subst hk
                rw [hres] at h3
                injection h3 with h3
                subst h3
                exact absurd h4 htm
              · exact ⟨k, v, m, hm, h1, h2, h3, h4, h5⟩
    · rw [if_neg hg] at h
      rw [ih _ _ h f]
      constructor
      · rintro ⟨k, v, m, hm, h1, h2, h3, h4, h5⟩
        exact ⟨k, v, m, List.mem_cons_of_mem _ hm, h1, h2, h3, h4, h5⟩
      · rintro ⟨k, v, m, hm, h1, h2, h3, h4, h5⟩
        rcases List.mem_cons.mp hm with hm | hm
        · rw [Prod.mk.injEq] at hm
          obtain ⟨hk, hv⟩ := hm
          subst hk; subst hv
          exact absurd ⟨h1, h2⟩ hg
        · exact ⟨k, v, m, hm, h1, h2, h3, h4, h5⟩

/-- The parameters collected by the join rewrite are exactly one copy of the
tenant id per collected fragment: the id travels only as a bound parameter. -/
theorem collectJoinFilters_params (reg : Registry) (amap : List (String × String))
    (base : String) (tid : Int) :
    ∀ (l : List (String × Nat)) (sqls : List String) (params : List Int),
      collectJoinFilters reg amap base tid l = Except.ok (sqls, params) →
      params = List.replicate sqls.length tid := by
  intro l
  induction l with
  | nil =>
    intro sqls params h
    simp only [collectJoinFilters] at h
    cases h
    rfl
  | cons hd rest ih =>
    obtain ⟨k0, v0⟩ := hd
    intro sqls params h
    simp only [collectJoinFilters] at h
    by_cases hg : 0 < v0 ∧ k0 ≠ base
    · rw [if_pos hg] at h
      cases hres : resolveAlias reg amap k0 with
      | error e => rw [hres] at h; cases h
      | ok mdl =>
        rw [hres] at h
        dsimp only at h
        cases hcol : collectJoinFilters reg amap base tid rest with
        | error e => rw [hcol] at h; cases h
        | ok pr =>
          obtain ⟨s, p⟩ := pr
          rw [hcol] at h
          dsimp only at h
          by_cases htm : mdl.isTenantModel
          · rw [if_pos htm] at h
            injection h with h
            rw [Prod.mk.injEq] at h
            obtain ⟨hs, hp⟩ := h
            subst hs; subst hp
            simp [List.replicate, ih _ _ hcol]
          · rw [if_neg htm] at h
            injection h with h
            rw [Prod.mk.injEq] at h
            obtain ⟨hs, hp⟩ := h
            subst hs; subst hp
            exact ih _ _ hcol
    · rw [if_neg hg] at h
      exact ih _ _ h

/-- When the join-rewrite loop succeeds, every used non-base alias was
resolved to some registered model. -/
theorem collectJoinFilters_ok_resolves (reg : Registry) (amap : List (String × String))
    (base : String) (tid : Int) :
    ∀ (l : List (String × Nat)) (sqls : List String) (params : List Int),
      collectJoinFilters reg amap base tid l = Except.ok (sqls, params) →
      ∀ k v, (k, v) ∈ l → 0 < v → k ≠ base →
        ∃ mdl, resolveAlias reg amap k = Except.ok mdl := by
  intro l
  induction l with
  | nil =>
    intro sqls params _ k v hm
    cases hm
  | cons hd rest ih =>
    obtain ⟨k0, v0⟩ := hd
    intro sqls params h k v hm hv hk
    simp only [collectJoinFilters] at h
    by_cases hg : 0 < v0 ∧ k0 ≠ base
    · rw [if_pos hg] at h
      cases hres : resolveAlias reg amap k0 with
      | error e => rw [hres] at h; cases h
      | ok mdl =>
        rw [hres] at h
        dsimp only at h
        cases hcol : collectJoinFilters reg amap base tid rest with
        | error e => rw [hcol] at h; cases h
        | ok pr =>
          obtain ⟨s, p⟩ := pr
          rcases List.mem_cons.mp hm with hm | hm
          · rw [Prod.mk.injEq] at hm
            obtain ⟨hk0, _⟩ := hm
            subst hk0
            exact ⟨mdl, hres⟩
          · exact ih _ _ hcol k v hm hv hk
    · rw [if_neg hg] at h
      rcases List.mem_cons.mp hm with hm | hm
      · rw [Prod.mk.injEq] at hm
        obtain ⟨hk0, hv0⟩ := hm
        subst hk0; subst hv0
        exact absurd ⟨hv, hk⟩ hg
      · exact ih _ _ h k v hm hv hk

/-!
Claim theorems.
-/

/-- Claim C1 (amended): for the main-module join rewrite under a truthy
current tenant, the resulting predicate list extends the incoming one by a
tenant predicate exactly for the used, non-base aliases whose physical
tables resolve to TenantModel subclasses; aliases resolving to
non-tenant-scoped models receive no injected predicate on this path.  (The
middleware copy of the rewrite does not satisfy this; see the
counterexample.) -/
theorem C1_join_rewrite_tenant_scoped_iff (reg : Registry) (model : EntityType)
    (q q' : Query) (t : PyTenant) (ht : t.truthy = true)
    (hok : add_tenant_filters_with_joins reg (some t) model q = Except.ok q') :
    ∀ f, f ∈ q'.extra_where ↔
      f ∈ q.extra_where ∨ ∃ k v mdl, (k, v) ∈ q.alias_refcount ∧ 0 < v ∧
        k ≠ model.db_table ∧ resolveAlias reg q.alias_map k = Except.ok mdl ∧
        mdl.isTenantModel = true ∧ f = joinPredicate k mdl := by
  intro f
  simp only [add_tenant_filters_with_joins, get_current_tenant, ht, if_true] at hok
  cases hcol : collectJoinFilters reg q.alias_map model.db_table t.id q.alias_refcount with
  | error e => rw [hcol] at hok; cases hok
  | ok pr =>
    obtain ⟨sqls, params⟩ := pr
    rw [hcol] at hok
    dsimp only at hok
    injection hok with hok
    subst hok
    simp only [Query.add_extra, List.mem_append]
    rw [collectJoinFilters_mem reg q.alias_map model.db_table t.id q.alias_refcount sqls params hcol f]

/-- Claim C1 (counterexample): the middleware copy of the join rewrite
injects a predicate for a used joined alias whose table resolves to the
Store model even though Store is not tenant-scoped (not a TenantModel
subclass), contradicting the claim that non-tenant-scoped aliases receive
no injected predicate. -/
theorem C1_counterexample :
    storeEntity.isTenantModel = false ∧
    middleware_add_tenant_filters_with_joins demoReg (some tenantOne) productEntity
        demoStoreJoinQuery =
      Except.ok { demoStoreJoinQuery with extra_where := ["stores_store.id=1"] } :=
  ⟨rfl, rfl⟩

/-- Claim C1 (witness): the amended theorem applied to a concrete query that
joins both the tenant-scoped Purchase table and the non-tenant-scoped Store
table: precisely the Purchase predicate is injected. -/
theorem C1_join_rewrite_tenant_scoped_iff_witness :
    tenantOne.truthy = true ∧
    add_tenant_filters_with_joins demoReg (some tenantOne) productEntity mixedJoinQuery =
      Except.ok { mixedJoinQuery with
        extra_where := [joinPredicate "stores_purchase" purchaseEntity],
        extra_params := [1] } ∧
    ∀ f, f ∈ ({ mixedJoinQuery with
        extra_where := [joinPredicate "stores_purchase" purchaseEntity],
        extra_params := [1] } : Query).extra_where ↔
      f ∈ mixedJoinQuery.extra_where ∨ ∃ k v mdl, (k, v) ∈ mixedJoinQuery.alias_refcount ∧
        0 < v ∧ k ≠ productEntity.db_table ∧
        resolveAlias demoReg mixedJoinQuery.alias_map k = Except.ok mdl ∧
        mdl.isTenantModel = true ∧ f = joinPredicate k mdl :=
  ⟨rfl, rfl,
    C1_join_rewrite_tenant_scoped_iff demoReg productEntity mixedJoinQuery _ tenantOne rfl rfl⟩

/-- Claim C2: with a truthy current tenant the Scoped Manager's default
queryset is the unscoped queryset filtered by the model's tenant column
equal to the tenant's id — membership is exactly "row of the unscoped set
whose tenant column equals the tenant id" — and with no current tenant it is
the unscoped queryset unchanged. -/
theorem C2_manager_default_queryset (model : EntityType) (rows : List DBRow)
    (t : PyTenant) (ht : t.truthy = true) :
    (TenantManager.get_queryset (some t) model rows =
        rows.filter (fun r => r.cols model.tenant_id == t.id)
      ∧ ∀ r, r ∈ TenantManager.get_queryset (some t) model rows ↔
          r ∈ rows ∧ r.cols model.tenant_id = t.id)
    ∧ TenantManager.get_queryset none model rows = rows := by
  refine ⟨⟨?_, ?_⟩, rfl⟩
  · simp [TenantManager.get_queryset, get_current_tenant, ht]
  · intro r
    simp [TenantManager.get_queryset, get_current_tenant, ht, List.mem_filter]

/-- Claim C2 (witness): the manager theorem applied to Product rows of two
different stores under tenant 1. -/
theorem C2_manager_default_queryset_witness :
    tenantOne.truthy = true ∧
    ((TenantManager.get_queryset (some tenantOne) productEntity [demoRow 1, demoRow 2] =
        [demoRow 1, demoRow 2].filter (fun r => r.cols productEntity.tenant_id == tenantOne.id)
      ∧ ∀ r, r ∈ TenantManager.get_queryset (some tenantOne) productEntity [demoRow 1, demoRow 2] ↔
          r ∈ [demoRow 1, demoRow 2] ∧ r.cols productEntity.tenant_id = tenantOne.id)
    ∧ TenantManager.get_queryset none productEntity [demoRow 1, demoRow 2] = [demoRow 1, demoRow 2]) :=
  ⟨rfl, C2_manager_default_queryset productEntity [demoRow 1, demoRow 2] tenantOne rfl⟩

/-- Claim C3: with a truthy current tenant, the Update Guard narrows the
update's target-row queryset to the rows whose tenant column equals the
tenant's id (so no row of another tenant can be touched, even if the
original queryset contained such rows), and hands the primary key, changed
values, field set, database and force flag through unchanged. -/
theorem C3_update_guard_containment (model : EntityType) (t : PyTenant)
    (ht : t.truthy = true) (c : UpdateCall) :
    (∀ r ∈ (TenantModel._do_update (some t) model c).base_qs,
        r ∈ c.base_qs ∧ r.cols model.tenant_id = t.id)
    ∧ (TenantModel._do_update (some t) model c).base_qs =
        c.base_qs.filter (fun r => r.cols model.tenant_id == t.id)
    ∧ (TenantModel._do_update (some t) model c).pk_val = c.pk_val
    ∧ (TenantModel._do_update (some t) model c).values = c.values
    ∧ (TenantModel._do_update (some t) model c).update_fields = c.update_fields
    ∧ (TenantModel._do_update (some t) model c).using_db = c.using_db
    ∧ (TenantModel._do_update (some t) model c).forced_update = c.forced_update := by
  refine ⟨?_, ?_, ?_, ?_, ?_, ?_, ?_⟩ <;>
    simp [TenantModel._do_update, get_current_tenant, ht, List.mem_filter]

/-- Claim C3 (witness): the Update Guard theorem at a concrete update whose
original target set contains a row of another tenant. -/
theorem C3_update_guard_containment_witness :
    tenantOne.truthy = true ∧
    ((∀ r ∈ (TenantModel._do_update (some tenantOne) productEntity
          { base_qs := [demoRow 1, demoRow 2], using_db := "default", pk_val := 10,
            values := [("name", 3)], update_fields := ["name"], forced_update := false }).base_qs,
        r ∈ [demoRow 1, demoRow 2] ∧ r.cols productEntity.tenant_id = tenantOne.id)
    ∧ (TenantModel._do_update (some tenantOne) productEntity
          { base_qs := [demoRow 1, demoRow 2], using_db := "default", pk_val := 10,
            values := [("name", 3)], update_fields := ["name"], forced_update := false }).base_qs =
        [demoRow 1, demoRow 2].filter (fun r => r.cols productEntity.tenant_id == tenantOne.id)
    ∧ (TenantModel._do_update (some tenantOne) productEntity
          { base_qs := [demoRow 1, demoRow 2], using_db := "default", pk_val := 10,
            values := [("name", 3)], update_fields := ["name"], forced_update := false }).pk_val = 10
    ∧ (TenantModel._do_update (some tenantOne) productEntity
          { base_qs := [demoRow 1, demoRow 2], using_db := "default", pk_val := 10,
            values := [("name", 3)], update_fields := ["name"], forced_update := false }).values = [("name", 3)]
    ∧ (TenantModel._do_update (some tenantOne) productEntity
          { base_qs := [demoRow 1, demoRow 2], using_db := "default", pk_val := 10,
            values := [("name", 3)], update_fields := ["name"], forced_update := false }).update_fields = ["name"]
    ∧ (TenantModel._do_update (some tenantOne) productEntity
          { base_qs := [demoRow 1, demoRow 2], using_db := "default", pk_val := 10,
            values := [("name", 3)], update_fields := ["name"], forced_update := false }).using_db = "default"
    ∧ (TenantModel._do_update (some tenantOne) productEntity
          { base_qs := [demoRow 1, demoRow 2], using_db := "default", pk_val := 10,
            values := [("name", 3)], update_fields := ["name"], forced_update := false }).forced_update = false) :=
  ⟨rfl, C3_update_guard_containment productEntity tenantOne rfl _⟩

/-- Claim C4: for a TenantForeignKey between two models whose tenant columns
resolve, the generated extra join restriction is the same whatever the
Tenant Context Store holds, it is exactly the AND-ed equality of the two
sides' tenant columns, and under that condition a candidate row pair whose
tenant column values differ never appears among the join's result pairs. -/
theorem C4_tenant_fk_join_safety (fk : TenantForeignKey) (al related_al : String)
    (hne : related_al ≠ al)
    (hl : fk.model.tenant_id ∈ fk.model.fields)
    (hr : fk.related_model.tenant_id ∈ fk.related_model.fields) :
    (∀ ctx1 ctx2 : TenantCtx,
        fk.get_extra_restriction ctx1 al related_al = fk.get_extra_restriction ctx2 al related_al)
    ∧ (∀ ctx : TenantCtx,
        fk.get_extra_restriction ctx al related_al =
          Except.ok { lookups := [{ lhs_alias := related_al, lhs_col := fk.model.tenant_id,
                                    rhs_alias := al, rhs_col := fk.related_model.tenant_id }] })
    ∧ ∀ (lhsRows rhsRows : List DBRow) (joinKey : DBRow → DBRow → Bool) (l r : DBRow),
        l.cols fk.model.tenant_id ≠ r.cols fk.related_model.tenant_id →
        (l, r) ∉ joinPairs lhsRows rhsRows related_al al joinKey
          { lookups := [{ lhs_alias := related_al, lhs_col := fk.model.tenant_id,
                          rhs_alias := al, rhs_col := fk.related_model.tenant_id }] } := by
  have hcond : ∀ ctx : TenantCtx,
      fk.get_extra_restriction ctx al related_al =
        Except.ok { lookups := [{ lhs_alias := related_al, lhs_col := fk.model.tenant_id,
                                  rhs_alias := al, rhs_col := fk.related_model.tenant_id }] } := by
    intro ctx
    simp [TenantForeignKey.get_extra_restriction, EntityType.get_field, hl, hr, Condition.add]
  refine ⟨fun ctx1 ctx2 => (hcond ctx1).trans (hcond ctx2).symm, hcond, ?_⟩
  intro lhsRows rhsRows joinKey l r hdiff hmem
  have hp := (List.mem_filter.mp hmem).2
  simp only [evalCondition, pairAssign, List.all_cons, List.all_nil, Bool.and_true] at hp
  simp only [if_true, if_neg (show ¬(al = related_al) from fun h => hne h.symm)] at hp
  simp only [Bool.and_eq_true, beq_iff_eq] at hp
  exact hdiff hp.2

/-- Claim C4 (witness): the join-safety theorem at the Purchase-to-Product
TenantForeignKey of the demo schema, with a concrete cross-tenant row pair
(store 1 versus store 2) excluded from the join result even though the
explicit join key accepts every pair. -/
theorem C4_tenant_fk_join_safety_witness :
    ("t1" : String) ≠ "t2" ∧
    purchaseEntity.tenant_id ∈ purchaseEntity.fields ∧
    productEntity.tenant_id ∈ productEntity.fields ∧
    ((∀ ctx1 ctx2 : TenantCtx,
        TenantForeignKey.get_extra_restriction ctx1
            { model := purchaseEntity, related_model := productEntity } "t2" "t1" =
          TenantForeignKey.get_extra_restriction ctx2
            { model := purchaseEntity, related_model := productEntity } "t2" "t1")
    ∧ (∀ ctx : TenantCtx,
        TenantForeignKey.get_extra_restriction ctx
            { model := purchaseEntity, related_model := productEntity } "t2" "t1" =
          Except.ok { lookups := [{ lhs_alias := "t1", lhs_col := purchaseEntity.tenant_id,
                                    rhs_alias := "t2", rhs_col := productEntity.tenant_id }] })
    ∧ ∀ (lhsRows rhsRows : List DBRow) (joinKey : DBRow → DBRow → Bool) (l r : DBRow),
        l.cols purchaseEntity.tenant_id ≠ r.cols productEntity.tenant_id →
        (l, r) ∉ joinPairs lhsRows rhsRows "t1" "t2" joinKey
          { lookups := [{ lhs_alias := "t1", lhs_col := purchaseEntity.tenant_id,
                          rhs_alias := "t2", rhs_col := productEntity.tenant_id }] }) ∧
    (demoRow 1).cols purchaseEntity.tenant_id ≠ (demoRow 2).cols productEntity.tenant_id ∧
    (demoRow 1, demoRow 2) ∉ joinPairs [demoRow 1] [demoRow 2] "t1" "t2" (fun _ _ => true)
      { lookups := [{ lhs_alias := "t1", lhs_col := purchaseEntity.tenant_id,
                      rhs_alias := "t2", rhs_col := productEntity.tenant_id }] } := by
  have h := C4_tenant_fk_join_safety
    { model := purchaseEntity, related_model := productEntity } "t2" "t1"
    (by decide) (by decide) (by decide)
  exact ⟨by decide, by decide, by decide, h,
    by decide, h.2.2 [demoRow 1] [demoRow 2] (fun _ _ => true) (demoRow 1) (demoRow 2) (by decide)⟩

/-- Claim C5: with a truthy current tenant, if the query has a used joined
alias (refcount positive, distinct from the base table) whose physical table
name matches no registered model, the main-module join rewrite raises — the
whole rewrite returns an error, never a rewritten query that silently skips
that alias's filter. -/
theorem C5_unresolved_alias_aborts (reg : Registry) (model : EntityType)
    (q : Query) (t : PyTenant) (k : String) (v : Nat) (tname : String)
    (ht : t.truthy = true)
    (hmem : (k, v) ∈ q.alias_refcount) (hv : 0 < v) (hk : k ≠ model.db_table)
    (hmap : lookupAlias q.alias_map k = some tname)
    (hunreg : ∀ m ∈ reg, m.db_table ≠ tname) :
    ∃ e, add_tenant_filters_with_joins reg (some t) model q = Except.error e := by
  have hres : resolveAlias reg q.alias_map k =
      Except.error ("No model found with db_table " ++ tname ++ "!") := by
    simp only [resolveAlias, hmap, get_model_by_db_table]
    rw [List.find?_eq_none.mpr]
    intro m hm
    simpa using hunreg m hm
  cases hall : add_tenant_filters_with_joins reg (some t) model q with
  | error e => exact ⟨e, rfl⟩
  | ok q' =>
    exfalso
    simp only [add_tenant_filters_with_joins, get_current_tenant, ht, if_true] at hall
    cases hcol : collectJoinFilters reg q.alias_map model.db_table t.id q.alias_refcount with
    | error e => rw [hcol] at hall; cases hall
    | ok pr =>
      obtain ⟨sqls, params⟩ := pr
      obtain ⟨mdl, hmdl⟩ :=
        collectJoinFilters_ok_resolves reg q.alias_map model.db_table t.id
          q.alias_refcount sqls params hcol k v hmem hv hk
      rw [hres] at hmdl
      cases hmdl

/-- Claim C5 (witness): a concrete query joining an alias over the table
name missing_table, which no registered model carries, makes the rewrite
error out under tenant 1. -/
theorem C5_unresolved_alias_aborts_witness :
    tenantOne.truthy = true ∧
    ("ghost", 1) ∈ ([("ghost", 1)] : List (String × Nat)) ∧
    0 < 1 ∧
    ("ghost" : String) ≠ productEntity.db_table ∧
    lookupAlias [("ghost", "missing_table")] "ghost" = some "missing_table" ∧
    (∀ m ∈ demoReg, m.db_table ≠ "missing_table") ∧
    ∃ e, add_tenant_filters_with_joins demoReg (some tenantOne) productEntity
        { alias_refcount := [("ghost", 1)], alias_map := [("ghost", "missing_table")],
          extra_where := [], extra_params := [] } = Except.error e :=
  ⟨rfl, by decide, by decide, by decide, rfl, by decide,
    C5_unresolved_alias_aborts demoReg productEntity
      { alias_refcount := [("ghost", 1)], alias_map := [("ghost", "missing_table")],
        extra_where := [], extra_params := [] }
      tenantOne "ghost" 1 "missing_table" rfl (by decide) (by decide) (by decide) rfl (by decide)⟩

/-- Claim C6 (code evaluated at the failing input): triggering the rewrite
for count and then for iteration on the same query object, under the same
current tenant, appends the same tenant predicate twice — after the second
compilation event the compiled predicate list holds two copies of the
injected predicate, not one. -/
theorem C6_rewrite_not_idempotent :
    count_rewrite demoReg (some tenantOne) productEntity demoQuery =
      Except.ok { demoQuery with
        extra_where := [joinPredicate "stores_purchase" purchaseEntity],
        extra_params := [1] } ∧
    iter_rewrite demoReg (some tenantOne) productEntity
        { demoQuery with
          extra_where := [joinPredicate "stores_purchase" purchaseEntity],
          extra_params := [1] } =
      Except.ok { demoQuery with
        extra_where := [joinPredicate "stores_purchase" purchaseEntity,
                        joinPredicate "stores_purchase" purchaseEntity],
        extra_params := [1, 1] } ∧
    List.count (joinPredicate "stores_purchase" purchaseEntity)
      [joinPredicate "stores_purchase" purchaseEntity,
       joinPredicate "stores_purchase" purchaseEntity] = 2 :=
  ⟨rfl, rfl, by decide⟩

/-- Claim C7 (amended): on the main-module join path every appended
predicate is parameterized — the fragment is the tenant-independent string
joinPredicate (whose text carries the placeholder and never the id) and the
tenant id is appended once per fragment to the bound parameters — while the
no-join path appends a fragment with the tenant id string-interpolated into
the SQL text and no bound parameter at all. -/
theorem C7_parameterization (reg : Registry) (model : EntityType)
    (q q' : Query) (t : PyTenant) (ht : t.truthy = true)
    (hok : add_tenant_filters_with_joins reg (some t) model q = Except.ok q') :
    (∃ frags, q'.extra_where = q.extra_where ++ frags
      ∧ (∀ f ∈ frags, ∃ k mdl, resolveAlias reg q.alias_map k = Except.ok mdl ∧
          mdl.isTenantModel = true ∧ f = joinPredicate k mdl)
      ∧ q'.extra_params = q.extra_params ++ List.replicate frags.length t.id)
    ∧ ∀ (m2 : EntityType) (q2 : Query),
        add_tenant_filters_without_joins (some t) m2 q2 =
          q2.add_extra [m2.db_table ++ "." ++ m2.tenant_id ++ "=" ++ toString t.id] [] := by
  constructor
  · simp only [add_tenant_filters_with_joins, get_current_tenant, ht, if_true] at hok
    cases hcol : collectJoinFilters reg q.alias_map model.db_table t.id q.alias_refcount with
    | error e => rw [hcol] at hok; cases hok
    | ok pr =>
      obtain ⟨sqls, params⟩ := pr
      rw [hcol] at hok
      dsimp only at hok
      injection hok with hok
      subst hok
      refine ⟨sqls, rfl, ?_, ?_⟩
      · intro f hf
        obtain ⟨k, v, mdl, _, _, _, h3, h4, h5⟩ :=
          (collectJoinFilters_mem reg q.alias_map model.db_table t.id
            q.alias_refcount sqls params hcol f).mp hf
        exact ⟨k, mdl, h3, h4, h5⟩
      · rw [collectJoinFilters_params reg q.alias_map model.db_table t.id
          q.alias_refcount sqls params hcol]
        rfl
  · intro m2 q2
    simp [add_tenant_filters_without_joins, get_current_tenant, ht]

/-- Claim C7 (counterexample): the no-join rewrite, at tenant id 7, appends
the fragment with the id concatenated into the SQL text and passes no bound
parameter; changing the tenant id changes the fragment itself, so the id is
in the string, not in the parameters. -/
theorem C7_counterexample :
    (add_tenant_filters_without_joins (some { id := 7, truthy := true })
        productEntity emptyQuery).extra_where = ["stores_product.store_id=7"]
    ∧ (add_tenant_filters_without_joins (some { id := 7, truthy := true })
        productEntity emptyQuery).extra_params = []
    ∧ (add_tenant_filters_without_joins (some { id := 8, truthy := true })
        productEntity emptyQuery).extra_where ≠
      (add_tenant_filters_without_joins (some { id := 7, truthy := true })
        productEntity emptyQuery).extra_where :=
  ⟨rfl, rfl, by decide⟩

/-- Claim C7 (witness): the parameterization theorem at the concrete mixed
join query under tenant 1. -/
theorem C7_parameterization_witness :
    tenantOne.truthy = true ∧
    ((∃ frags, ({ mixedJoinQuery with
          extra_where := [joinPredicate "stores_purchase" purchaseEntity],
          extra_params := [1] } : Query).extra_where = mixedJoinQuery.extra_where ++ frags
      ∧ (∀ f ∈ frags, ∃ k mdl, resolveAlias demoReg mixedJoinQuery.alias_map k = Except.ok mdl ∧
          mdl.isTenantModel = true ∧ f = joinPredicate k mdl)
      ∧ ({ mixedJoinQuery with
          extra_where := [joinPredicate "stores_purchase" purchaseEntity],
          extra_params := [1] } : Query).extra_params =
            mixedJoinQuery.extra_params ++ List.replicate frags.length tenantOne.id)
    ∧ ∀ (m2 : EntityType) (q2 : Query),
        add_tenant_filters_without_joins (some tenantOne) m2 q2 =
          q2.add_extra [m2.db_table ++ "." ++ m2.tenant_id ++ "=" ++ toString tenantOne.id] []) :=
  ⟨rfl, C7_parameterization demoReg productEntity mixedJoinQuery _ tenantOne rfl rfl⟩

/-- Claim C8 (amended): for an inbound request whose actor is absent,
falsy or anonymous, process_request leaves the tenant slot exactly as it
was (only the user slot is rewritten): the context is unset afterwards only
if it was already unset, and a tenant left in the same thread's slot by an
earlier unit of work persists. -/
theorem C8_anonymous_request_keeps_stale_tenant (st : ThreadState) (request : HttpRequest)
    (h : ∀ u, request.user = some u → u.truthy = false ∨ u.is_anonymous = true) :
    ThreadLocals.process_request st request =
      Except.ok { st with user := request.user } := by
  unfold ThreadLocals.process_request
  cases hu : request.user with
  | none => rfl
  | some u =>
    rcases h u hu with h1 | h1
    · simp [h1]
    · simp [h1]

/-- Claim C8 (counterexample): an anonymous request (no user object) hitting
a thread whose slot still holds tenant 1 from an earlier unit of work leaves
tenant 1 in the store — the Tenant Context Store is not unset, so queries in
the new unit of work keep running scoped to the stale tenant. -/
theorem C8_counterexample :
    ∃ st, ThreadLocals.process_request
        { user := none, tenant := some tenantOne } { user := none } = Except.ok st
      ∧ st.tenant = some tenantOne
      ∧ st.tenant ≠ none :=
  ⟨{ user := none, tenant := some tenantOne }, rfl, rfl, by decide⟩

/-- Claim C8 (witness): the amended theorem at the concrete stale state and
anonymous request. -/
theorem C8_anonymous_request_keeps_stale_tenant_witness :
    (∀ u, ({ user := none } : HttpRequest).user = some u →
        u.truthy = false ∨ u.is_anonymous = true) ∧
    ThreadLocals.process_request { user := none, tenant := some tenantOne } { user := none } =
      Except.ok { user := none, tenant := some tenantOne } :=
  ⟨(fun u hu => by cases hu),
    C8_anonymous_request_keeps_stale_tenant { user := none, tenant := some tenantOne }
      { user := none } (fun u hu => by cases hu)⟩

/-- Claim C9 (amended): declaring a TenantForeignKey never raises — the
class adds no definition-time validation — and a side whose tenant column is
not a resolvable field only surfaces as a FieldDoesNotExist error when the
join condition is first generated by get_extra_restriction during query
compilation. -/
theorem C9_fk_validation_deferred (m rel : EntityType)
    (h : m.tenant_id ∉ m.fields) :
    TenantForeignKey.declare m rel = Except.ok { model := m, related_model := rel }
    ∧ ∀ (ctx : TenantCtx) (al related_al : String), ∃ e,
        TenantForeignKey.get_extra_restriction ctx
          { model := m, related_model := rel } al related_al = Except.error e := by
  refine ⟨rfl, ?_⟩
  intro ctx al related_al
  refine ⟨"FieldDoesNotExist: " ++ m.tenant_id, ?_⟩
  simp [TenantForeignKey.get_extra_restriction, EntityType.get_field, h]

/-- Claim C9 (counterexample): a TenantForeignKey whose declaring side names
the tenant column store_id but has no such field is declared without any
error — no schema error at relation-definition time — while generating its
join condition fails. -/
theorem C9_counterexample :
    TenantForeignKey.declare
        { db_table := "stores_broken", isTenantModel := true,
          tenant_id := "store_id", fields := ["id", "name"] } storeEntity =
      Except.ok { model := { db_table := "stores_broken", isTenantModel := true,
                             tenant_id := "store_id", fields := ["id", "name"] },
                  related_model := storeEntity }
    ∧ ∃ e, TenantForeignKey.get_extra_restriction none
        { model := { db_table := "stores_broken", isTenantModel := true,
                     tenant_id := "store_id", fields := ["id", "name"] },
          related_model := storeEntity } "t2" "t1" = Except.error e :=
  ⟨rfl, ⟨"FieldDoesNotExist: store_id", rfl⟩⟩

/-- Claim C9 (witness): the amended theorem at the concrete broken model. -/
theorem C9_fk_validation_deferred_witness :
    ({ db_table := "stores_broken", isTenantModel := true,
       tenant_id := "store_id", fields := ["id", "name"] } : EntityType).tenant_id ∉
      ({ db_table := "stores_broken", isTenantModel := true,
         tenant_id := "store_id", fields := ["id", "name"] } : EntityType).fields ∧
    (TenantForeignKey.declare
        { db_table := "stores_broken", isTenantModel := true,
          tenant_id := "store_id", fields := ["id", "name"] } storeEntity =
      Except.ok { model := { db_table := "stores_broken", isTenantModel := true,
                             tenant_id := "store_id", fields := ["id", "name"] },
                  related_model := storeEntity }
    ∧ ∀ (ctx : TenantCtx) (al related_al : String), ∃ e,
        TenantForeignKey.get_extra_restriction ctx
          { model := { db_table := "stores_broken", isTenantModel := true,
                       tenant_id := "store_id", fields := ["id", "name"] },
            related_model := storeEntity } al related_al = Except.error e) :=
  ⟨by decide,
    C9_fk_validation_deferred
      { db_table := "stores_broken", isTenantModel := true,
        tenant_id := "store_id", fields := ["id", "name"] } storeEntity (by decide)⟩

/-- Claim C10 (amended): storing any falsy tenant value makes the Scoped
Manager queryset, the join rewrite, the no-join rewrite, the Update Guard
and the descriptor filter behave exactly as with no tenant stored — no
tenant predicate is added anywhere on those paths. -/
theorem C10_falsy_tenant_unscoped_operations (t : PyTenant) (ht : t.truthy = false)
    (reg : Registry) (model m2 : EntityType) (q : Query) (rows : List DBRow)
    (c : UpdateCall) :
    TenantManager.get_queryset (some t) model rows =
      TenantManager.get_queryset none model rows
    ∧ add_tenant_filters_with_joins reg (some t) model q =
      add_tenant_filters_with_joins reg none model q
    ∧ add_tenant_filters_without_joins (some t) model q =
      add_tenant_filters_without_joins none model q
    ∧ TenantModel._do_update (some t) model c = TenantModel._do_update none model c
    ∧ TenantForeignKey.get_extra_descriptor_filter (some t) m2 =
      TenantForeignKey.get_extra_descriptor_filter none m2 := by
  refine ⟨?_, ?_, ?_, ?_, ?_⟩ <;>
    simp [TenantManager.get_queryset, add_tenant_filters_with_joins,
      add_tenant_filters_without_joins, TenantModel._do_update,
      TenantForeignKey.get_extra_descriptor_filter, get_current_tenant, ht]

/-- Claim C10 (counterexample): a falsy non-None stored value is not
indistinguishable from the absent state at the public interface — the
produced interface's own get_current_tenant returns the stored value, which
differs from the absent result. -/
theorem C10_counterexample :
    get_current_tenant (set_current_tenant (some { id := 0, truthy := false })) ≠
      get_current_tenant none := by
  decide

/-- Claim C10 (witness): the amended theorem for the falsy tenant object
with id 0, on the demo registry and query. -/
theorem C10_falsy_tenant_unscoped_operations_witness :
    ({ id := 0, truthy := false } : PyTenant).truthy = false ∧
    (TenantManager.get_queryset (some { id := 0, truthy := false }) productEntity [demoRow 1] =
      TenantManager.get_queryset none productEntity [demoRow 1]
    ∧ add_tenant_filters_with_joins demoReg (some { id := 0, truthy := false })
        productEntity demoQuery =
      add_tenant_filters_with_joins demoReg none productEntity demoQuery
    ∧ add_tenant_filters_without_joins (some { id := 0, truthy := false })
        productEntity demoQuery =
      add_tenant_filters_without_joins none productEntity demoQuery
    ∧ TenantModel._do_update (some { id := 0, truthy := false }) productEntity
        { base_qs := [demoRow 1], using_db := "default", pk_val := 10,
          values := [("name", 3)], update_fields := ["name"], forced_update := false } =
      TenantModel._do_update none productEntity
        { base_qs := [demoRow 1], using_db := "default", pk_val := 10,
          values := [("name", 3)], update_fields := ["name"], forced_update := false }
    ∧ TenantForeignKey.get_extra_descriptor_filter
        (some { id := 0, truthy := false }) purchaseEntity =
      TenantForeignKey.get_extra_descriptor_filter none purchaseEntity) :=
  ⟨rfl, C10_falsy_tenant_unscoped_operations { id := 0, truthy := false } rfl
    demoReg productEntity purchaseEntity demoQuery [demoRow 1]
    { base_qs := [demoRow 1], using_db := "default", pk_val := 10,
      values := [("name", 3)], update_fields := ["name"], forced_update := false }⟩

end Multitenant
